import Mathlib

/-
Verification of the search-orchestration engine of an LLM-driven web research
agent (a Rust server).  Pure functions are translated directly from the Rust
source; async/stateful code is embedded as explicit state passing, with the
external collaborators (page fetches, the metasearch backend, chat-completion
calls) supplied as oracle parameters.  Rust panics (unwrap on None,
out-of-bounds Vec indexing) are modelled as Option, with none standing for
the panic branch.
-/

set_option maxRecDepth 10000

/-- Raw metasearch result (search.rs, struct SearchResult). -/
structure SearchResult where
  title : String
  url : String
  content : String
deriving DecidableEq, Repr, Inhabited

/-- Cleaned webpage (webpage_parse.rs, struct ParsedWebpage). -/
structure ParsedWebpage where
  original_content : String
  content : String
deriving DecidableEq, Repr

/-- Decides whether needle occurs as a contiguous run inside the character list.
Mirrors Rust str::contains used on completions. -/
def containsAux (needle : List Char) : List Char → Bool
  | [] => needle.isEmpty
  | c :: rest => needle.isPrefixOf (c :: rest) || containsAux needle rest

/-- String containment, Rust str::contains. -/
def strContains (hay needle : String) : Bool := containsAux needle.data hay.data

/-- Whitespace trim on both ends, Rust str::trim (restricted to the ASCII
whitespace characters, which are the ones the completions and cleaned pages
use); written over the character list so that it evaluates by rfl. -/
def strTrim (s : String) : String :=
  ⟨((s.data.dropWhile Char.isWhitespace).reverse.dropWhile Char.isWhitespace).reverse⟩

/-- Sentinel literal (prompts.rs:33-34). -/
def WEB_SEARCH_USE_SAME_WEB_SEARCH_FINDINGS_DOCUMENT : String :=
  "USE_SAME_WEB_SEARCH_FINDINGS_DOCUMENT"

/- ===== C5: extraction pass (agent_search.rs:320-349, visit_and_extract_relevant_info) ===== -/

/-- Error kinds of a webpage fetch-and-clean (webpage_parse.rs, enum WebpageParseError). -/
inductive WebpageParseErrorKind where
  | fetchError
  | domParseError
deriving DecidableEq, Repr

/-- Error of the extraction pass (agent_search.rs, enum VisitAndExtractRelevantInfoError). -/
inductive VisitAndExtractRelevantInfoError where
  | llmError (msg : String)
  | webpageParseError (e : WebpageParseErrorKind)
deriving DecidableEq, Repr

/-- User prompt built by visit_and_extract_relevant_info (agent_search.rs:329-332). -/
def analyzeResultUserPrompt (query : String) (result : SearchResult)
    (pageContent : String) (current_analysis : String) : String :=
  "# Query:\n" ++ query ++ "\n\n# Search result:\n## " ++ result.title ++ " (" ++
    result.url ++ ")\n\n" ++ pageContent ++ "\n\n# Current findings document:\n" ++
    current_analysis

/-- Embedding of visit_and_extract_relevant_info (agent_search.rs:320-349).  The page
fetch outcome and the chat completion are oracle inputs; the LLM oracle maps the
user prompt to either an error or the completion text. -/
def visit_and_extract_relevant_info (query current_analysis : String) (result : SearchResult)
    (fetchOutcome : Except WebpageParseErrorKind ParsedWebpage)
    (llm : String → Except String String) : Except VisitAndExtractRelevantInfoError String :=
  match fetchOutcome with
  | .error e => .error (.webpageParseError e)
  | .ok parsed_webpage =>
    match llm (analyzeResultUserPrompt query result parsed_webpage.content current_analysis) with
    | .error e => .error (.llmError e)
    | .ok completion =>
      if strContains completion WEB_SEARCH_USE_SAME_WEB_SEARCH_FINDINGS_DOCUMENT then
        .ok current_analysis
      else
        .ok completion

/-- C5: for every query, current findings string and search result, when the LLM
completion contains the sentinel USE_SAME_WEB_SEARCH_FINDINGS_DOCUMENT the
extraction pass returns the current findings byte-identical, and when the
completion does not contain the sentinel it returns the completion itself. -/
theorem c5_sentinel_extraction (query current_analysis : String) (result : SearchResult)
    (parsed : ParsedWebpage) (llm : String → Except String String) (completion : String)
    (hllm : llm (analyzeResultUserPrompt query result parsed.content current_analysis) =
      .ok completion) :
    (strContains completion WEB_SEARCH_USE_SAME_WEB_SEARCH_FINDINGS_DOCUMENT = true →
      visit_and_extract_relevant_info query current_analysis result (.ok parsed) llm =
        .ok current_analysis)
    ∧ (strContains completion WEB_SEARCH_USE_SAME_WEB_SEARCH_FINDINGS_DOCUMENT = false →
      visit_and_extract_relevant_info query current_analysis result (.ok parsed) llm =
        .ok completion) := by
  constructor <;> intro hc <;> simp [visit_and_extract_relevant_info, hllm, hc]

/-- Witness for C5 at a concrete input: a completion carrying the sentinel leaves
the findings "current findings" unchanged. -/
theorem c5_sentinel_extraction_witness :
    visit_and_extract_relevant_info "q" "current findings" ⟨"t", "u", "c"⟩
      (.ok ⟨"orig", "page"⟩)
      (fun _ => .ok "text USE_SAME_WEB_SEARCH_FINDINGS_DOCUMENT text") =
      .ok "current findings" :=
  (c5_sentinel_extraction "q" "current findings" ⟨"t", "u", "c"⟩ ⟨"orig", "page"⟩
    (fun _ => .ok "text USE_SAME_WEB_SEARCH_FINDINGS_DOCUMENT text")
    "text USE_SAME_WEB_SEARCH_FINDINGS_DOCUMENT text" rfl).1 (by decide)

/- ===== C10: query synthesis (query.rs:124-158, synthesize_queries) ===== -/

/-- Query synthesis strategy (query.rs, enum QueryStrategy). -/
inductive QueryStrategy where
  | verbatim
  | singleSynthesize
  | parallelSynthesize
  | sequentialSynthesize
deriving DecidableEq, Repr

/-- Parsed response of the single-query synthesis prompt (query.rs, struct QueryResponse). -/
structure QueryResponse where
  reasoning : String
  query : String
deriving DecidableEq, Repr

/-- Parsed response of the multi-query synthesis prompts (query.rs, struct MultiQueryResponse). -/
structure MultiQueryResponse where
  reasoning : String
  queries : List String
deriving DecidableEq, Repr

/-- Error of query synthesis (query.rs, enum QuerySynthesisError). -/
inductive QuerySynthesisError where
  | llmError (msg : String)
  | jsonParsingError (msg : String)
deriving DecidableEq, Repr

/-- Oracle holding the outcome of each possible LLM-backed generator call
(generate_single_query / generate_parallel_queries / generate_sequential_queries,
each an LLM completion followed by a fenced-json parse). -/
structure SynthesisOracle where
  singleOutcome : Except QuerySynthesisError QueryResponse
  parallelOutcome : Except QuerySynthesisError MultiQueryResponse
  sequentialOutcome : Except QuerySynthesisError MultiQueryResponse

/-- Embedding of synthesize_queries (query.rs:124-158).  The second component of
the pair counts the LLM calls the chosen branch performs. -/
def synthesize_queries (original_query : String) (strategy : QueryStrategy)
    (oracle : SynthesisOracle) : Except QuerySynthesisError MultiQueryResponse × Nat :=
  match strategy with
  | .verbatim => (.ok { reasoning := "", queries := [original_query] }, 0)
  | .singleSynthesize =>
    match oracle.singleOutcome with
    | .ok q => (.ok { reasoning := q.reasoning, queries := [q.query] }, 1)
    | .error e => (.error e, 1)
  | .parallelSynthesize =>
    match oracle.parallelOutcome with
    | .ok qs => (.ok qs, 1)
    | .error e => (.error e, 1)
  | .sequentialSynthesize =>
    match oracle.sequentialOutcome with
    | .ok qs => (.ok qs, 1)
    | .error e => (.error e, 1)

/-- C10: under Verbatim, synthesize_queries makes no LLM call and returns exactly
the one-element list holding the original query unchanged; under SingleSynthesize
every successful outcome is a one-element list; hence in both arms the
first-query lookup (queries.first().unwrap() in agent_search) cannot panic. -/
theorem c10_synthesize_first_query_safe (q : String) (oracle : SynthesisOracle) :
    synthesize_queries q .verbatim oracle = (.ok { reasoning := "", queries := [q] }, 0)
    ∧ (∀ r, (synthesize_queries q .singleSynthesize oracle).1 = .ok r →
        r.queries.length = 1 ∧ r.queries.head?.isSome = true) := by
  refine ⟨rfl, ?_⟩
  intro r h
  cases ho : oracle.singleOutcome with
  | ok qr =>
    simp only [synthesize_queries, ho] at h
    cases h
    exact ⟨rfl, rfl⟩
  | error e =>
    simp [synthesize_queries, ho] at h

/-- Witness for C10 at a concrete input: a successful SingleSynthesize run yields a
one-element query list whose head exists. -/
theorem c10_synthesize_first_query_safe_witness :
    (⟨"r", ["France capital"]⟩ : MultiQueryResponse).queries.length = 1
    ∧ (⟨"r", ["France capital"]⟩ : MultiQueryResponse).queries.head?.isSome = true :=
  (c10_synthesize_first_query_safe "capital of France"
    ⟨.ok ⟨"r", "France capital"⟩, .ok ⟨"", []⟩, .ok ⟨"", []⟩⟩).2
    ⟨"r", ["France capital"]⟩ rfl

/- ===== C7: metasearch client pagination (search.rs:143-172, search) ===== -/

/-- Error of the metasearch client (search.rs, enum SearchError). -/
inductive SearchError where
  | requestError (msg : String)
  | searxError (msg : String)
deriving DecidableEq, Repr

/-- Default for max_results_to_visit (search.rs:140). -/
def MAX_RESULTS_TO_VISIT : Nat := 10

/-- Page size of the metasearch backend (search.rs:141). -/
def SEARX_RESULTS_PER_PAGE : Nat := 8

/-- Inner loop of search (search.rs:161-164): push one page's results onto the
accumulator, breaking as soon as the accumulator holds max_results elements. -/
def searchPushPage (max_results : Nat) : List SearchResult → List SearchResult → List SearchResult
  | acc, [] => acc
  | acc, r :: rest =>
    if max_results ≤ acc.length then acc
    else searchPushPage max_results (acc ++ [r]) rest

/-- Outer loop of search (search.rs:158-170): consume per-page outcomes in page
order, failing on the first page error. -/
def searchCollect (max_results : Nat) :
    List (Except SearchError (List SearchResult)) → List SearchResult →
    Except SearchError (List SearchResult)
  | [], acc => .ok acc
  | .error e :: _, _ => .error e
  | .ok page :: rest, acc => searchCollect max_results rest (searchPushPage max_results acc page)

/-- Embedding of search (search.rs:143-172).  The oracle maps a page number to the
outcome of single_page_search for that page; pages are numbered 1..num_pages. -/
def search (pageOutcome : Nat → Except SearchError (List SearchResult))
    (max_results_to_visit : Option Nat) : Except SearchError (List SearchResult) :=
  let max_results := max_results_to_visit.getD MAX_RESULTS_TO_VISIT
  let num_pages := (max_results + SEARX_RESULTS_PER_PAGE - 1) / SEARX_RESULTS_PER_PAGE
  let pages := (List.range num_pages).map (fun i => pageOutcome (i + 1))
  searchCollect max_results pages []

/-- Helper: truncating after prepending an already-truncated list is the same as
truncating the full concatenation. -/
theorem take_append_take (X Y : List SearchResult) (n : Nat) :
    ((X.take n) ++ Y).take n = (X ++ Y).take n := by
  rcases Nat.le_total X.length n with h | h
  · rw [List.take_of_length_le h]
  · have h1 : (X.take n).length = n := by
      rw [List.length_take]
      exact min_eq_left h
    rw [List.take_append_of_le_length (le_of_eq h1.symm),
      List.take_append_of_le_length h, List.take_take, min_self]

/-- Helper: the per-page push loop computes a truncated concatenation. -/
theorem searchPushPage_eq_take (max_results : Nat) (page acc : List SearchResult)
    (h : acc.length ≤ max_results) :
    searchPushPage max_results acc page = (acc ++ page).take max_results := by
  induction page generalizing acc with
  | nil => simp [searchPushPage, List.take_of_length_le h]
  | cons r rest ih =>
    rw [searchPushPage]
    by_cases hm : max_results ≤ acc.length
    · have hlen : acc.length = max_results := Nat.le_antisymm h hm
      rw [if_pos hm, List.take_append_of_le_length (by omega), List.take_of_length_le (by omega)]
    · rw [if_neg hm, ih (acc ++ [r]) (by simp; omega)]
      simp

/-- Helper: the page-consumption loop over all-successful pages returns the
page-order concatenation truncated to max_results. -/
theorem searchCollect_ok (max_results : Nat) (pages : List (List SearchResult))
    (acc : List SearchResult) (h : acc.length ≤ max_results) :
    searchCollect max_results (pages.map .ok) acc =
      .ok ((acc ++ pages.flatten).take max_results) := by
  induction pages generalizing acc with
  | nil => simp [searchCollect, List.take_of_length_le h]
  | cons p ps ih =>
    rw [List.map_cons, searchCollect, searchPushPage_eq_take max_results p acc h,
      ih _ (by simp [List.length_take])]
    rw [take_append_take, List.flatten_cons, List.append_assoc]

/-- C7: for every search input and every sequence of successful per-page
metasearch responses, search issues ceil(max/8) page requests numbered 1..N,
returns the concatenation of the page results in page order truncated to
max_results, and the returned list always has length at most max_results. -/
theorem c7_search_pagination_truncation (g : Nat → List SearchResult)
    (max_results_to_visit : Option Nat) :
    search (fun p => .ok (g p)) max_results_to_visit =
      .ok (((List.range ((max_results_to_visit.getD MAX_RESULTS_TO_VISIT +
          SEARX_RESULTS_PER_PAGE - 1) / SEARX_RESULTS_PER_PAGE)).map
            (fun i => g (i + 1))).flatten.take (max_results_to_visit.getD MAX_RESULTS_TO_VISIT))
    ∧ (∀ res, search (fun p => .ok (g p)) max_results_to_visit = .ok res →
        res.length ≤ max_results_to_visit.getD MAX_RESULTS_TO_VISIT) := by
  have key : search (fun p => .ok (g p)) max_results_to_visit =
      .ok (((List.range ((max_results_to_visit.getD MAX_RESULTS_TO_VISIT +
          SEARX_RESULTS_PER_PAGE - 1) / SEARX_RESULTS_PER_PAGE)).map
            (fun i => g (i + 1))).flatten.take
              (max_results_to_visit.getD MAX_RESULTS_TO_VISIT)) := by
    rw [search, show (List.range ((max_results_to_visit.getD MAX_RESULTS_TO_VISIT +
        SEARX_RESULTS_PER_PAGE - 1) / SEARX_RESULTS_PER_PAGE)).map
          (fun i => (.ok (g (i + 1)) : Except SearchError (List SearchResult))) =
        ((List.range ((max_results_to_visit.getD MAX_RESULTS_TO_VISIT +
          SEARX_RESULTS_PER_PAGE - 1) / SEARX_RESULTS_PER_PAGE)).map
            (fun i => g (i + 1))).map .ok by rw [List.map_map]; rfl]
    rw [searchCollect_ok _ _ _ (by simp)]
    simp
  refine ⟨key, ?_⟩
  intro res hres
  rw [key] at hres
  cases hres
  simp [List.length_take]

/-- Witness for C7 at a concrete input: one page of two results with max 1 yields
a single page request and a truncated list of length at most 1. -/
theorem c7_search_pagination_truncation_witness :
    ([⟨"t", "u", "c"⟩] : List SearchResult).length ≤ (some 1 : Option Nat).getD MAX_RESULTS_TO_VISIT :=
  (c7_search_pagination_truncation
    (fun p => if p = 1 then [⟨"t", "u", "c"⟩, ⟨"t2", "u2", "c2"⟩] else []) (some 1)).2
    [⟨"t", "u", "c"⟩] rfl

/- ===== Shared data model of the traversal strategies ===== -/

/-- Findings document (agent_search.rs, struct AnalysisDocument). -/
structure AnalysisDocument where
  content : String
  visited_results : List SearchResult
  unvisited_results : List SearchResult
deriving DecidableEq, Repr

/-- Result of one single-query agent search (agent_search.rs, struct AgentSearchResult). -/
structure AgentSearchResult where
  analysis : AnalysisDocument
  queries_executed : List String
deriving DecidableEq, Repr

/-- Result shape used by the strategy files parallel.rs / parallel_tree.rs / human.rs,
which return the analysis together with the raw metasearch list
(struct AgentSearchResult with field raw_results in those files). -/
structure LegacyAgentSearchResult where
  analysis : AnalysisDocument
  raw_results : List SearchResult
deriving DecidableEq, Repr

/-- One extraction output paired with its search result (agent_search.rs / parallel.rs,
struct ExtractionResult). -/
structure ExtractionResult where
  search_result : SearchResult
  content : String
deriving DecidableEq, Repr

/- ===== C8: Parallel strategy (parallel.rs:33-76, parallel_agent_search) ===== -/

/-- Error of the Parallel strategy (parallel.rs, enum ParallelAgentSearchError).
The searx search happens before the embedded fragment, and JoinError cannot
arise in a sequentialised embedding, so those variants are omitted. -/
inductive ParallelAgentSearchError where
  | visitAndExtractRelevantInfoError (e : VisitAndExtractRelevantInfoError)
  | aggregationPassError (msg : String)
deriving DecidableEq, Repr

/-- Embedding of parallel_agent_search (parallel.rs:33-76) after the searx call:
extraction tasks are spawned in list order, join_all returns their outcomes in
the same order, and enumerate pairs output index i with search_results[i], so
the pairing is the positional zip.  Each extraction is invoked with empty
initial findings (the "" literal at parallel.rs:48). -/
def parallel_agent_search (query : String) (search_results : List SearchResult)
    (extract : SearchResult → Except VisitAndExtractRelevantInfoError String)
    (aggregate : String → List ExtractionResult → Except String String) :
    Except ParallelAgentSearchError LegacyAgentSearchResult :=
  match search_results.mapM extract with
  | .error e => .error (.visitAndExtractRelevantInfoError e)
  | .ok contents =>
    let extraction_results := (search_results.zip contents).map
      (fun p => { search_result := p.1, content := p.2 })
    match aggregate query extraction_results with
    | .error e => .error (.aggregationPassError e)
    | .ok aggregated_result =>
      .ok { analysis := { content := aggregated_result,
                          visited_results := search_results,
                          unvisited_results := [] },
            raw_results := search_results }

/-- C8: every Parallel run that returns successfully has visited_results equal to
the full raw metasearch list in its original order and empty unvisited_results,
with the i-th extraction output paired to the i-th raw result before aggregation. -/
theorem c8_parallel_visited_is_raw (query : String) (search_results : List SearchResult)
    (extract : SearchResult → Except VisitAndExtractRelevantInfoError String)
    (aggregate : String → List ExtractionResult → Except String String)
    (res : LegacyAgentSearchResult)
    (h : parallel_agent_search query search_results extract aggregate = .ok res) :
    res.analysis.visited_results = search_results
    ∧ res.analysis.unvisited_results = []
    ∧ res.raw_results = search_results
    ∧ ∃ contents, search_results.mapM extract = .ok contents
        ∧ aggregate query ((search_results.zip contents).map
            (fun p => { search_result := p.1, content := p.2 })) =
          .ok res.analysis.content := by
  unfold parallel_agent_search at h
  cases hm : search_results.mapM extract with
  | error e => rw [hm] at h; exact absurd h (by simp)
  | ok contents =>
    rw [hm] at h
    simp only at h
    cases ha : aggregate query ((search_results.zip contents).map
        (fun p => { search_result := p.1, content := p.2 })) with
    | error e => rw [ha] at h; exact absurd h (by simp)
    | ok aggregated =>
      rw [ha] at h
      cases h
      exact ⟨rfl, rfl, rfl, contents, rfl, ha⟩

/-- Witness for C8 at a concrete input: two results, both extractions and the
aggregation succeeding. -/
theorem c8_parallel_visited_is_raw_witness :
    ((⟨⟨"agg", [⟨"a", "ua", "ca"⟩, ⟨"b", "ub", "cb"⟩], []⟩,
        [⟨"a", "ua", "ca"⟩, ⟨"b", "ub", "cb"⟩]⟩ :
      LegacyAgentSearchResult).analysis.unvisited_results = []) :=
  (c8_parallel_visited_is_raw "q" [⟨"a", "ua", "ca"⟩, ⟨"b", "ub", "cb"⟩]
    (fun r => .ok r.title) (fun _ _ => .ok "agg")
    ⟨⟨"agg", [⟨"a", "ua", "ca"⟩, ⟨"b", "ub", "cb"⟩], []⟩,
      [⟨"a", "ua", "ca"⟩, ⟨"b", "ub", "cb"⟩]⟩ (by rfl)).2.1

/- ===== C9 / C1: multi-query composer (agent_search.rs:219-316, agent_search) ===== -/

/-- Error of a single-query strategy dispatch (agent_search.rs, enum AgentSingleSearchError). -/
inductive AgentSingleSearchError where
  | humanAgentSearchError (msg : String)
  | parallelAgentSearchError (msg : String)
  | sequentialAgentSearchError (msg : String)
  | parallelTreeAgentSearchError (msg : String)
deriving DecidableEq, Repr

/-- One step of the ParallelSynthesize merge loop (agent_search.rs:262-283): when the
accumulated content is empty the sub-result is adopted wholesale, otherwise contents
and result lists are concatenated; queries_executed is always extended. -/
def mergeStep (st : AnalysisDocument × List String) (res : AgentSearchResult) :
    AnalysisDocument × List String :=
  ( if st.1.content.isEmpty then res.analysis
    else { content := st.1.content ++ "\n\n" ++ res.analysis.content,
           visited_results := st.1.visited_results ++ res.analysis.visited_results,
           unvisited_results := st.1.unvisited_results ++ res.analysis.unvisited_results },
    st.2 ++ res.queries_executed)

/-- Merge of the per-query results in the ParallelSynthesize arm of agent_search
(agent_search.rs:256-287). -/
def mergeParallelResults (results : List AgentSearchResult) : AgentSearchResult :=
  let st := results.foldl mergeStep
    ({ content := "", visited_results := [], unvisited_results := [] }, [])
  { analysis := st.1, queries_executed := st.2 }

/-- Embedding of the ParallelSynthesize arm of agent_search (agent_search.rs:219-288):
one sub-search per synthesized query, spawned in query order; join_all returns the
outcomes in the same order, the first error is returned, otherwise the results are
merged. -/
def parallelSynthesizeArm (queries : List String)
    (run : String → Except AgentSingleSearchError AgentSearchResult) :
    Except AgentSingleSearchError AgentSearchResult :=
  match queries.mapM run with
  | .error e => .error e
  | .ok results => .ok (mergeParallelResults results)

/-- Embedding of the SequentialSynthesize arm of agent_search (agent_search.rs:289-316).
The running accumulator cur_result starts as None; inside the loop the code calls
cur_result.unwrap() to build the next accumulator, and after the loop it returns
Ok(cur_result.unwrap()).  An unwrap of None is a Rust panic, modelled as none. -/
def sequentialSynthesizeLoop (run : String → Except AgentSingleSearchError AgentSearchResult) :
    List String → Option AgentSearchResult →
    Option (Except AgentSingleSearchError AgentSearchResult)
  | [], cur =>
    match cur with
    | some r => some (.ok r)
    | none => none
  | q :: rest, cur =>
    match run q with
    | .error e => some (.error e)
    | .ok iter_result =>
      match cur with
      | none => none
      | some prev =>
        sequentialSynthesizeLoop run rest
          (some { analysis := iter_result.analysis,
                  queries_executed := prev.queries_executed ++ iter_result.queries_executed })

/-- The SequentialSynthesize arm entered with the synthesized query list. -/
def sequentialSynthesizeArm (queries : List String)
    (run : String → Except AgentSingleSearchError AgentSearchResult) :
    Option (Except AgentSingleSearchError AgentSearchResult) :=
  sequentialSynthesizeLoop run queries none

/-- C1: the SequentialSynthesize arm hits the unwrap-of-None panic.  With the
one-element query list ["a"] and a successful sub-search, the first loop iteration
evaluates cur_result.unwrap() while cur_result is still None and panics (modelled
as none); with an empty query list the unwrap after the loop panics likewise, so
the arm never returns normally. -/
theorem c1_sequential_synthesize_panics :
    sequentialSynthesizeArm ["a"]
      (fun q => .ok { analysis := { content := "f", visited_results := [],
                                    unvisited_results := [] },
                      queries_executed := [q] }) = none
    ∧ sequentialSynthesizeArm []
      (fun q => .ok { analysis := { content := "f", visited_results := [],
                                    unvisited_results := [] },
                      queries_executed := [q] }) = none := by
  exact ⟨rfl, rfl⟩

/-- Helper: appending to a non-empty string keeps it non-empty. -/
theorem append_isEmpty_false (a b : String) (h : a.isEmpty = false) :
    (a ++ b).isEmpty = false := by
  cases hab : (a ++ b).isEmpty
  · rfl
  · exfalso
    have hc : a ++ b = "" := (String.isEmpty_iff _).mp hab
    have ha : a = "" := by
      cases a with
      | mk d =>
        cases b with
        | mk d2 =>
          cases d with
          | nil => rfl
          | cons c cs =>
            have he := congrArg String.data hc
            simp at he
    rw [ha] at h
    exact absurd h (by decide)

/-- Sub-contents each preceded by a blank-line separator. -/
def joinSepTail : List String → String
  | [] => ""
  | c :: rest => "\n\n" ++ c ++ joinSepTail rest

/-- Sub-contents concatenated with blank-line separators. -/
def joinWithBlankLine : List String → String
  | [] => ""
  | [c] => c
  | c :: c2 :: rest => c ++ "\n\n" ++ joinWithBlankLine (c2 :: rest)

/-- Helper: head plus separated tail is the blank-line join. -/
theorem joinWithBlankLine_cons (c : String) (cs : List String) :
    c ++ joinSepTail cs = joinWithBlankLine (c :: cs) := by
  induction cs generalizing c with
  | nil => simp [joinSepTail, joinWithBlankLine]
  | cons c2 rest ih =>
    rw [joinSepTail, joinWithBlankLine, ← ih c2]
    simp [String.append_assoc]

/-- Helper: from a state whose accumulated content is non-empty, the merge loop
concatenates contents (with blank-line separators), result lists and query lists. -/
theorem mergeStep_foldl_nonempty (rs : List AgentSearchResult) (doc : AnalysisDocument)
    (qs : List String) (hdoc : doc.content.isEmpty = false)
    (hne : ∀ r ∈ rs, r.analysis.content.isEmpty = false) :
    rs.foldl mergeStep (doc, qs) =
      ({ content := doc.content ++ joinSepTail (rs.map (fun r => r.analysis.content)),
         visited_results :=
           doc.visited_results ++ (rs.map (fun r => r.analysis.visited_results)).flatten,
         unvisited_results :=
           doc.unvisited_results ++ (rs.map (fun r => r.analysis.unvisited_results)).flatten },
       qs ++ (rs.map (fun r => r.queries_executed)).flatten) := by
  induction rs generalizing doc qs with
  | nil => simp [joinSepTail]
  | cons r rest ih =>
    rw [List.foldl_cons, mergeStep, if_neg (by rw [hdoc]; exact Bool.false_ne_true)]
    rw [ih _ _ (append_isEmpty_false _ _ (append_isEmpty_false _ _ hdoc))
      (fun x hx => hne x (List.mem_cons_of_mem r hx))]
    simp [joinSepTail, String.append_assoc]

/-- C9 (amended): when every sub-result's analysis content is non-empty, the
ParallelSynthesize arm returns contents concatenated with blank-line separators,
visited/unvisited lists concatenated in query order, and queries_executed extended
with every sub-call's queries. -/
theorem c9_parallel_synthesize_merge (queries : List String)
    (run : String → Except AgentSingleSearchError AgentSearchResult)
    (results : List AgentSearchResult)
    (hrun : queries.mapM run = .ok results)
    (hne : ∀ r ∈ results, r.analysis.content.isEmpty = false) :
    parallelSynthesizeArm queries run = .ok
      { analysis :=
          { content := joinWithBlankLine (results.map (fun r => r.analysis.content)),
            visited_results := (results.map (fun r => r.analysis.visited_results)).flatten,
            unvisited_results := (results.map (fun r => r.analysis.unvisited_results)).flatten },
        queries_executed := (results.map (fun r => r.queries_executed)).flatten } := by
  rw [parallelSynthesizeArm, hrun]
  cases results with
  | nil => rfl
  | cons r rest =>
    simp only [mergeParallelResults]
    rw [List.foldl_cons]
    have hstep : mergeStep ({ content := "", visited_results := [], unvisited_results := [] }, []) r
        = (r.analysis, [] ++ r.queries_executed) := rfl
    rw [hstep]
    rw [mergeStep_foldl_nonempty rest r.analysis ([] ++ r.queries_executed)
      (hne r (List.mem_cons_self r rest))
      (fun x hx => hne x (List.mem_cons_of_mem r hx))]
    simp [joinWithBlankLine_cons]

/-- Witness for C9 at a concrete input: two successful sub-results with non-empty
contents "A" and "B" merge into "A\n\nB" with both result lists concatenated in
query order. -/
theorem c9_parallel_synthesize_merge_witness :
    parallelSynthesizeArm ["q1", "q2"]
      (fun q => if q = "q1" then
          .ok { analysis := { content := "A", visited_results := [⟨"a", "ua", "ca"⟩],
                              unvisited_results := [] }, queries_executed := ["q1"] }
        else
          .ok { analysis := { content := "B", visited_results := [⟨"b", "ub", "cb"⟩],
                              unvisited_results := [] }, queries_executed := ["q2"] }) =
      .ok { analysis := { content := "A\n\nB",
                          visited_results := [⟨"a", "ua", "ca"⟩, ⟨"b", "ub", "cb"⟩],
                          unvisited_results := [] },
            queries_executed := ["q1", "q2"] } :=
  c9_parallel_synthesize_merge ["q1", "q2"]
    (fun q => if q = "q1" then
        .ok { analysis := { content := "A", visited_results := [⟨"a", "ua", "ca"⟩],
                            unvisited_results := [] }, queries_executed := ["q1"] }
      else
        .ok { analysis := { content := "B", visited_results := [⟨"b", "ub", "cb"⟩],
                            unvisited_results := [] }, queries_executed := ["q2"] })
    [{ analysis := { content := "A", visited_results := [⟨"a", "ua", "ca"⟩],
                     unvisited_results := [] }, queries_executed := ["q1"] },
     { analysis := { content := "B", visited_results := [⟨"b", "ub", "cb"⟩],
                     unvisited_results := [] }, queries_executed := ["q2"] }]
    rfl (by decide)

/-- Counterexample for C9 as stated: when the first sub-result has empty content
(but a non-empty visited list), the merge adopts the second sub-result wholesale,
dropping the first sub-result's visited_results, so the claimed concatenation of
visited lists in query order does not hold. -/
theorem c9_counterexample_empty_content_drops_lists :
    parallelSynthesizeArm ["q1", "q2"]
      (fun q => if q = "q1" then
          .ok { analysis := { content := "", visited_results := [⟨"a", "ua", "ca"⟩],
                              unvisited_results := [] }, queries_executed := ["q1"] }
        else
          .ok { analysis := { content := "x", visited_results := [⟨"b", "ub", "cb"⟩],
                              unvisited_results := [] }, queries_executed := ["q2"] }) =
      .ok { analysis := { content := "x", visited_results := [⟨"b", "ub", "cb"⟩],
                          unvisited_results := [] },
            queries_executed := ["q1", "q2"] }
    ∧ ([⟨"b", "ub", "cb"⟩] : List SearchResult) ≠
        [⟨"a", "ua", "ca"⟩] ++ [⟨"b", "ub", "cb"⟩] := by
  exact ⟨rfl, by decide⟩

/- ===== C2: webpage fetcher (webpage_parse.rs:37-86, visit_and_parse_webpage) ===== -/

/-- Outcome of one HTTP GET attempt: a transport error or a response of any
HTTP status (the code never inspects the status). -/
inductive AttemptOutcome where
  | transportError (msg : String)
  | response (status : Nat) (body : String)
deriving DecidableEq, Repr

/-- Retry constant (webpage_parse.rs:37, MAX_RETRIES). -/
def MAX_RETRIES : Nat := 3

/-- Observable trace of the retry loop: how many GET attempts were made, how many
1-second sleeps happened, and the final outcome. -/
structure FetchTrace where
  attemptsMade : Nat
  sleeps : Nat
  outcome : Except String (Nat × String)
deriving Repr

/-- Embedding of the retry loop of visit_and_parse_webpage (webpage_parse.rs:40-72):
on a response the loop breaks whatever the status; on a transport error the
attempts counter is incremented, and the loop fails once attempts >= MAX_RETRIES,
otherwise sleeps 1 second and retries.  The fuel argument equals MAX_RETRIES at
entry, which is an upper bound for the loop's iterations, so the fuel-exhaustion
branch is unreachable from visitFetch. -/
def visitFetchGo (f : Nat → AttemptOutcome) : Nat → Nat → Nat → FetchTrace
  | attempts, sleeps, 0 =>
    { attemptsMade := attempts, sleeps := sleeps, outcome := .error "out of fuel" }
  | attempts, sleeps, fuel + 1 =>
    match f attempts with
    | .response status body =>
      { attemptsMade := attempts + 1, sleeps := sleeps, outcome := .ok (status, body) }
    | .transportError e =>
      if MAX_RETRIES ≤ attempts + 1 then
        { attemptsMade := attempts + 1, sleeps := sleeps, outcome := .error e }
      else
        visitFetchGo f (attempts + 1) (sleeps + 1) fuel

/-- The retry loop started with zero attempts, as in visit_and_parse_webpage. -/
def visitFetch (f : Nat → AttemptOutcome) : FetchTrace := visitFetchGo f 0 0 MAX_RETRIES

/-- Embedding of enforce_n_sequential_newlines (utils.rs:109-124). -/
def enforceAux (n : Nat) : List Char → Nat → List Char
  | [], _ => []
  | c :: rest, newline_count =>
    if c = '\n' then
      if newline_count + 1 ≤ n then c :: enforceAux n rest (newline_count + 1)
      else enforceAux n rest (newline_count + 1)
    else c :: enforceAux n rest 0

/-- Collapse runs of newlines to at most n consecutive (utils.rs:109-124,
enforce_n_sequential_newlines). -/
def enforce_n_sequential_newlines (text : String) (n : Nat) : String :=
  ⟨enforceAux n text.data 0⟩

/-- Embedding of dom_parse_webpage (webpage_parse.rs:130-155).  The ammonia HTML
sanitizer is an external crate, supplied as the clean oracle; the line filter and
the newline collapsing are translated (Rust str::lines is modelled as splitting
on a newline, which agrees with it up to carriage returns and a trailing newline,
both of which only ever produce lines the empty-line filter drops). -/
def dom_parse_webpage (clean : String → String) (webpage_text : String) : ParsedWebpage :=
  let clean_html := clean webpage_text
  let clean_html := String.intercalate "\n"
    ((clean_html.splitOn "\n").filter (fun line => !(strTrim line).isEmpty))
  let clean_html := enforce_n_sequential_newlines clean_html 2
  { original_content := webpage_text, content := clean_html }

/-- Embedding of visit_and_parse_webpage (webpage_parse.rs:39-86): run the retry
loop, and on any response pass its body to dom_parse_webpage unchanged and trim
the cleaned content.  The fetch trace is returned alongside the result. -/
def visit_and_parse_webpage (f : Nat → AttemptOutcome) (clean : String → String) :
    FetchTrace × Except WebpageParseErrorKind ParsedWebpage :=
  let trace := visitFetch f
  match trace.outcome with
  | .error _ => (trace, .error .fetchError)
  | .ok statusBody =>
    let dom_text := dom_parse_webpage clean statusBody.2
    (trace, .ok { original_content := dom_text.original_content,
                  content := strTrim dom_text.content })

/-- Attempt sequence refuting C1 of the fetcher claim: transport failures on the
first three attempts, success available on the fourth. -/
def c2FailingAttempts : Nat → AttemptOutcome :=
  fun k => if k < 3 then .transportError "connection refused" else .response 200 "ok"

/-- Counterexample for C2 as stated: after the initial GET fails, the loop does not
retry up to 3 further times - it makes 3 attempts in total (2 retries, 2 sleeps)
and fails with FetchError even though a fourth attempt would have returned a
response. -/
theorem c2_counterexample_only_two_retries :
    visitFetch c2FailingAttempts =
      { attemptsMade := 3, sleeps := 2, outcome := .error "connection refused" }
    ∧ c2FailingAttempts 3 = .response 200 "ok" := by
  exact ⟨rfl, rfl⟩

/-- C2 (amended): the fetcher makes at most 3 GET attempts in total (the initial
attempt plus up to 2 retries), sleeping 1 second between consecutive attempts;
it fails with FetchError exactly when the first 3 attempts all fail at the
transport level; the first response breaks the loop whatever its HTTP status
(4xx/5xx included), and its body is passed to sanitize (dom_parse_webpage)
unchanged before trimming. -/
theorem c2_fetch_at_most_three_attempts (f : Nat → AttemptOutcome) (clean : String → String) :
    (visitFetch f).attemptsMade ≤ MAX_RETRIES
    ∧ (∀ e0 e1 e2, f 0 = .transportError e0 → f 1 = .transportError e1 →
        f 2 = .transportError e2 →
        visitFetch f = { attemptsMade := 3, sleeps := 2, outcome := .error e2 })
    ∧ (∀ st body, f 0 = .response st body →
        visitFetch f = { attemptsMade := 1, sleeps := 0, outcome := .ok (st, body) })
    ∧ (∀ e0 st body, f 0 = .transportError e0 → f 1 = .response st body →
        visitFetch f = { attemptsMade := 2, sleeps := 1, outcome := .ok (st, body) })
    ∧ (∀ e0 e1 st body, f 0 = .transportError e0 → f 1 = .transportError e1 →
        f 2 = .response st body →
        visitFetch f = { attemptsMade := 3, sleeps := 2, outcome := .ok (st, body) })
    ∧ (∀ st body, (visitFetch f).outcome = .ok (st, body) →
        (visit_and_parse_webpage f clean).2 =
          .ok { original_content := body,
                content := strTrim (dom_parse_webpage clean body).content }) := by
  refine ⟨?_, ?_, ?_, ?_, ?_, ?_⟩
  · rcases h0 : f 0 with e0 | ⟨st0, b0⟩
    · rcases h1 : f 1 with e1 | ⟨st1, b1⟩
      · rcases h2 : f 2 with e2 | ⟨st2, b2⟩
        · simp [visitFetch, visitFetchGo, MAX_RETRIES, h0, h1, h2]
        · simp [visitFetch, visitFetchGo, MAX_RETRIES, h0, h1, h2]
      · simp [visitFetch, visitFetchGo, MAX_RETRIES, h0, h1]
    · simp [visitFetch, visitFetchGo, MAX_RETRIES, h0]
  · intro e0 e1 e2 h0 h1 h2
    simp [visitFetch, visitFetchGo, MAX_RETRIES, h0, h1, h2]
  · intro st body h0
    simp [visitFetch, visitFetchGo, MAX_RETRIES, h0]
  · intro e0 st body h0 h1
    simp [visitFetch, visitFetchGo, MAX_RETRIES, h0, h1]
  · intro e0 e1 st body h0 h1 h2
    simp [visitFetch, visitFetchGo, MAX_RETRIES, h0, h1, h2]
  · intro st body hok
    rw [visit_and_parse_webpage]
    simp only [hok]
    simp [dom_parse_webpage]

/-- Witness for C2 at a concrete input: first attempt fails at the transport
level, second returns a 404 response, so the loop makes 2 attempts with 1 sleep
and accepts the response without a further retry. -/
theorem c2_fetch_at_most_three_attempts_witness :
    visitFetch (fun k => if k = 0 then .transportError "refused" else .response 404 "not found") =
      { attemptsMade := 2, sleeps := 1, outcome := .ok (404, "not found") } :=
  (c2_fetch_at_most_three_attempts
    (fun k => if k = 0 then .transportError "refused" else .response 404 "not found")
    (fun s => s)).2.2.2.1 "refused" 404 "not found" rfl rfl

/- ===== C3: ParallelTree strategy (parallel_tree.rs:79-97 and 151-180) ===== -/

/-- Dependency tree parsed from the LLM completion (parallel_tree.rs, struct
DependencyTree).  serde_json::from_str deserializes any JSON object of shape
levels: list of lists of unsigned integers, with no validation of the indices,
so every value of this type is reachable from some completion. -/
structure DependencyTree where
  levels : List (List Nat)
deriving DecidableEq, Repr

/-- Selection of a level's search results (parallel_tree.rs:85-88): the source
indexes search_results[idx] for each index of the level, which panics when an
index is out of bounds; the panic branch is none. -/
def selectLevelResults (search_results : List SearchResult) :
    List Nat → Option (List SearchResult)
  | [] => some []
  | idx :: rest =>
    match search_results.get? idx with
    | none => none
    | some r =>
      match selectLevelResults search_results rest with
      | none => none
      | some rs => some (r :: rs)

/-- Embedding of process_level (parallel_tree.rs:79-97): select the level's
results (panicking on an out-of-bounds index), then run the parallel
extract-and-aggregate pipeline on them with the current findings as baseline. -/
def process_level (search_results : List SearchResult) (level_indices : List Nat)
    (pipeline : List SearchResult → String → Except String String)
    (current_analysis : String) : Option (Except String String) :=
  match selectLevelResults search_results level_indices with
  | none => none
  | some level_results => some (pipeline level_results current_analysis)

/-- Level loop of parallel_tree_agent_search (parallel_tree.rs:167-170): process
each level in order, replacing the findings content with the level's output and
extending visited_results with the level's results (the extension indexes
search_results[idx] a second time, over the same indices). -/
def parallelTreeLevels (search_results : List SearchResult)
    (pipeline : List SearchResult → String → Except String String) :
    List (List Nat) → String → List SearchResult →
    Option (Except String LegacyAgentSearchResult)
  | [], current_analysis, visited_results =>
    some (.ok { analysis := { content := current_analysis,
                              visited_results := visited_results,
                              unvisited_results := [] },
                raw_results := search_results })
  | level :: rest, current_analysis, visited_results =>
    match selectLevelResults search_results level with
    | none => none
    | some level_results =>
      match pipeline level_results current_analysis with
      | .error e => some (.error e)
      | .ok new_analysis =>
        parallelTreeLevels search_results pipeline rest new_analysis
          (visited_results ++ level_results)

/-- Embedding of parallel_tree_agent_search (parallel_tree.rs:151-180) after the
searx call and the dependency-tree parse: run the levels in order starting from
empty findings and empty visited list. -/
def parallel_tree_agent_search (search_results : List SearchResult)
    (tree : DependencyTree)
    (pipeline : List SearchResult → String → Except String String) :
    Option (Except String LegacyAgentSearchResult) :=
  parallelTreeLevels search_results pipeline tree.levels "" []

/-- Counterexample for C3 as stated: the code validates nothing after
serde_json::from_str, so the completion text levels [[1]] (a well-formed
dependency tree) together with a single raw result reaches the out-of-bounds
branch of search_results[idx], which is a panic - not unreachable. -/
theorem c3_counterexample_invalid_index_panics :
    parallel_tree_agent_search [⟨"a", "ua", "ca"⟩] ⟨[[1]]⟩ (fun _ cur => .ok cur) = none := by
  rfl

/-- Helper: when every index of a level is in bounds the selection succeeds. -/
theorem selectLevelResults_isSome (search_results : List SearchResult)
    (level : List Nat) (h : ∀ i ∈ level, i < search_results.length) :
    ∃ rs, selectLevelResults search_results level = some rs := by
  induction level with
  | nil => exact ⟨[], rfl⟩
  | cons i rest ih =>
    obtain ⟨rs, hrs⟩ := ih (fun j hj => h j (List.mem_cons_of_mem i hj))
    have hi : i < search_results.length := h i (List.mem_cons_self i rest)
    have hr : search_results.get? i = some (search_results.get ⟨i, hi⟩) :=
      List.get?_eq_get hi
    refine ⟨search_results.get ⟨i, hi⟩ :: rs, ?_⟩
    rw [selectLevelResults, hr, hrs]

/-- C3 (amended): the indexing in the ParallelTree level loop is in bounds - and
hence the panic branch unreachable - exactly under the condition that every
index of the parsed dependency tree is a valid index into the raw result list;
the code itself enforces no such validation, so this holds only conditionally. -/
theorem c3_parallel_tree_in_bounds (search_results : List SearchResult)
    (tree : DependencyTree)
    (pipeline : List SearchResult → String → Except String String)
    (h : ∀ level ∈ tree.levels, ∀ i ∈ level, i < search_results.length) :
    (parallel_tree_agent_search search_results tree pipeline).isSome = true := by
  rw [parallel_tree_agent_search]
  have hgen : ∀ (levels : List (List Nat)) (cur : String) (vis : List SearchResult),
      (∀ level ∈ levels, ∀ i ∈ level, i < search_results.length) →
      (parallelTreeLevels search_results pipeline levels cur vis).isSome = true := by
    intro levels
    induction levels with
    | nil => intro cur vis _; rfl
    | cons level rest ih =>
      intro cur vis hlv
      obtain ⟨rs, hrs⟩ := selectLevelResults_isSome search_results level
        (hlv level (List.mem_cons_self level rest))
      cases hp : pipeline rs cur with
      | error e => simp [parallelTreeLevels, hrs, hp]
      | ok new_analysis =>
        simp only [parallelTreeLevels, hrs, hp]
        exact ih new_analysis (vis ++ rs)
          (fun l hl => hlv l (List.mem_cons_of_mem level hl))
  exact hgen tree.levels "" [] h

/-- Witness for C3 at a concrete input: with two results and the tree
levels [[1], [0]] every index is in bounds and the run does not panic. -/
theorem c3_parallel_tree_in_bounds_witness :
    (parallel_tree_agent_search [⟨"a", "ua", "ca"⟩, ⟨"b", "ub", "cb"⟩] ⟨[[1], [0]]⟩
      (fun _ cur => .ok cur)).isSome = true :=
  c3_parallel_tree_in_bounds [⟨"a", "ua", "ca"⟩, ⟨"b", "ub", "cb"⟩] ⟨[[1], [0]]⟩
    (fun _ cur => .ok cur) (by decide)

/- ===== C4: Human strategy (human.rs:188-220, human_agent_search loop body) ===== -/

/-- Findings document of the Human strategy (human.rs:181-185): this version of
the strategy file keeps used_results and discarded_results on the document; the
list of not-yet-visited results is a separate local variable of the loop. -/
structure HumanAnalysisDocument where
  content : String
  used_results : List SearchResult
  discarded_results : List SearchResult
deriving DecidableEq, Repr

/-- Decision of the analyze pass (human.rs, struct LLMDecision). -/
structure LLMDecision where
  keep_current : Bool
  new_analysis : Option String
deriving DecidableEq, Repr

/-- Embedding of visit_and_analyze_result (human.rs:58-100): fetch the page, ask
the LLM with the same analyze-result prompt, and signal keep-current exactly when
the completion carries the sentinel. -/
def visit_and_analyze_result (query current_analysis : String) (result : SearchResult)
    (fetchOutcome : Except WebpageParseErrorKind ParsedWebpage)
    (llm : String → Except String String) : Except String LLMDecision :=
  match fetchOutcome with
  | .error _ => .error "webpage parse failed"
  | .ok parsed_webpage =>
    match llm (analyzeResultUserPrompt query result parsed_webpage.content current_analysis) with
    | .error e => .error e
    | .ok completion =>
      if strContains completion WEB_SEARCH_USE_SAME_WEB_SEARCH_FINDINGS_DOCUMENT then
        .ok { keep_current := true, new_analysis := none }
      else
        .ok { keep_current := false, new_analysis := some completion }

/-- One iteration of the human_agent_search loop (human.rs:188-220), entered with
a non-empty unvisited list.  The select-next-result index, the page fetch, the
analyze completion and the sufficiency check are oracle inputs.  Vec::remove
panics when the selected index is out of bounds (none); otherwise the removed
result is pushed onto discarded_results when the decision keeps the current
findings, and onto used_results - with the completion installed as the new
content - when it does not.  The Bool in a successful outcome tells whether the
sufficiency check broke the loop. -/
def human_search_step (query : String) (analysis : HumanAnalysisDocument)
    (unvisited_results : List SearchResult)
    (selectOutcome : Except String Nat)
    (fetchOutcome : Except WebpageParseErrorKind ParsedWebpage)
    (llm : String → Except String String)
    (checkOutcome : Except String Bool) :
    Option (Except String (HumanAnalysisDocument × List SearchResult × Bool)) :=
  match selectOutcome with
  | .error e => some (.error e)
  | .ok next_index =>
    match unvisited_results.get? next_index with
    | none => none
    | some result =>
      match visit_and_analyze_result query analysis.content result fetchOutcome llm with
      | .error e => some (.error e)
      | .ok decision =>
        let analysis' :=
          if decision.keep_current then
            { analysis with discarded_results := analysis.discarded_results ++ [result] }
          else
            match decision.new_analysis with
            | some new_analysis =>
              { content := new_analysis,
                used_results := analysis.used_results ++ [result],
                discarded_results := analysis.discarded_results }
            | none => analysis
        match checkOutcome with
        | .error e => some (.error e)
        | .ok sufficient =>
          some (.ok (analysis', unvisited_results.eraseIdx next_index, sufficient))

/-- Counterexample for C4 as stated: in an iteration whose extraction output is
adopted as the findings content, the removed result is appended to used_results
(the visited-style list) and the remaining unvisited list is empty - the result
is not appended to any unvisited collection, and this document shape has no
unvisited_results field at all. -/
theorem c4_counterexample_result_goes_to_used :
    human_search_step "q" ⟨"", [], []⟩ [⟨"a", "ua", "ca"⟩] (.ok 0) (.ok ⟨"orig", "page"⟩)
      (fun _ => .ok "NEW FINDINGS") (.ok true) =
      some (.ok (⟨"NEW FINDINGS", [⟨"a", "ua", "ca"⟩], []⟩, [], true))
    ∧ ([] : List SearchResult) ≠ [⟨"a", "ua", "ca"⟩] := by
  exact ⟨rfl, by decide⟩

/-- C4 (amended): in every iteration of the Human strategy, the result removed
from the unvisited list is appended to the document's used_results when the
extraction output is adopted as the findings content, and to discarded_results
when the sentinel keeps the current findings; in both cases it is removed from
(never re-added to) the unvisited list. -/
theorem c4_human_appends_to_used (query : String) (analysis : HumanAnalysisDocument)
    (unvisited_results : List SearchResult) (idx : Nat) (result : SearchResult)
    (parsed : ParsedWebpage) (llm : String → Except String String)
    (completion : String) (sufficient : Bool)
    (hidx : unvisited_results.get? idx = some result)
    (hllm : llm (analyzeResultUserPrompt query result parsed.content analysis.content) =
      .ok completion) :
    (strContains completion WEB_SEARCH_USE_SAME_WEB_SEARCH_FINDINGS_DOCUMENT = false →
      human_search_step query analysis unvisited_results (.ok idx) (.ok parsed) llm
          (.ok sufficient) =
        some (.ok ({ content := completion,
                     used_results := analysis.used_results ++ [result],
                     discarded_results := analysis.discarded_results },
                   unvisited_results.eraseIdx idx, sufficient)))
    ∧ (strContains completion WEB_SEARCH_USE_SAME_WEB_SEARCH_FINDINGS_DOCUMENT = true →
      human_search_step query analysis unvisited_results (.ok idx) (.ok parsed) llm
          (.ok sufficient) =
        some (.ok ({ analysis with
                     discarded_results := analysis.discarded_results ++ [result] },
                   unvisited_results.eraseIdx idx, sufficient))) := by
  have hidx2 : unvisited_results[idx]? = some result := by
    rw [← List.get?_eq_getElem?]
    exact hidx
  constructor <;> intro hc <;>
    simp [human_search_step, hidx2, visit_and_analyze_result, hllm, hc]

/-- Witness for C4 at a concrete input: a non-sentinel completion "NEW" is adopted
and the removed result lands in used_results. -/
theorem c4_human_appends_to_used_witness :
    human_search_step "q" ⟨"old", [], []⟩ [⟨"a", "ua", "ca"⟩] (.ok 0) (.ok ⟨"orig", "page"⟩)
      (fun _ => .ok "NEW") (.ok false) =
      some (.ok (⟨"NEW", [⟨"a", "ua", "ca"⟩], []⟩, [], false)) :=
  (c4_human_appends_to_used "q" ⟨"old", [], []⟩ [⟨"a", "ua", "ca"⟩] 0 ⟨"a", "ua", "ca"⟩
    ⟨"orig", "page"⟩ (fun _ => .ok "NEW") "NEW" false rfl rfl).1 (by decide)

/- ===== C6: fenced block extraction (utils.rs:39-62, parse_markdown_code_block) ===== -/

/-- Backtick character of the fences. -/
def fenceChar : Char := Char.ofNat 96

/-- Word character of the regex class backslash-w (the language tags of interest
are ASCII such as json). -/
def isWordChar (c : Char) : Bool := c.isAlphanum || c = '_'

/-- Lazy search for the closing fence: split the text at the first occurrence of
a newline followed by three backticks, returning the block body before it and the
text after the closing fence.  Mirrors the non-greedy middle group of the Rust
regex followed by its closing-fence literal. -/
def findClose : List Char → Option (List Char × List Char)
  | [] => none
  | c :: rest =>
    if c = '\n' ∧ rest.take 3 = [fenceChar, fenceChar, fenceChar] then
      some ([], rest.drop 3)
    else
      (findClose rest).map (fun p => (c :: p.1, p.2))

/-- Attempt to match one fenced block at the head of the text: an opening fence of
three backticks, a greedy run of word characters as the language tag, a newline,
and the lazily-closed body.  Returns the tag, the raw body and the text after the
closing fence.  The backslash-w class excludes the newline, so the greedy tag run
followed by a mandatory newline cannot match in any other way (backtracking the
run only puts a word character where the newline is required). -/
def matchFenceAt (l : List Char) : Option (String × String × List Char) :=
  if l.take 3 = [fenceChar, fenceChar, fenceChar] then
    let rest := l.drop 3
    let lang := rest.takeWhile isWordChar
    match rest.dropWhile isWordChar with
    | '\n' :: body0 =>
      match findClose body0 with
      | some (body, after) => some (⟨lang⟩, ⟨body⟩, after)
      | none => none
    | _ => none
  else none

/-- Scanner reproducing Regex::captures_iter of the block pattern: successive
non-overlapping leftmost matches; where no match starts, advance one character.
Each step consumes at least one character, so the fuel (initialised to one more
than the text length) never runs out before the text does. -/
def scanBlocksGo : Nat → List Char → List (String × String)
  | 0, _ => []
  | _ + 1, [] => []
  | fuel + 1, c :: rest =>
    match matchFenceAt (c :: rest) with
    | some (lang, body, after) => (lang, body) :: scanBlocksGo fuel after
    | none => scanBlocksGo fuel rest

/-- All fenced code blocks of the text, as (language tag, raw body) pairs in
order of appearance. -/
def capturesIter (content : String) : List (String × String) :=
  scanBlocksGo (content.data.length + 1) content.data

/-- Error of the extractor (utils.rs, struct ParseMarkdownCodeBlockError). -/
structure ParseMarkdownCodeBlockError where
  message : String
  original_response : String
deriving DecidableEq, Repr

/-- Loop of parse_markdown_code_block (utils.rs:44-54): iterate over the captures;
with no requested language the first block is returned at once (the inl arm),
otherwise blocks whose tag equals the requested language are accumulated
(trimmed) in order. -/
def pmcbGo (language : Option String) :
    List (String × String) → List String → Sum String (List String)
  | [], valid_results => .inr valid_results
  | (block_language, block_body) :: caps, valid_results =>
    let parsed_content := strTrim block_body
    match language with
    | none => .inl parsed_content
    | some lang =>
      if block_language = lang then pmcbGo language caps (valid_results ++ [parsed_content])
      else pmcbGo language caps valid_results

/-- Embedding of parse_markdown_code_block (utils.rs:39-62).  The final
is_empty check plus last().unwrap() of the source is the getLast? match. -/
def parse_markdown_code_block (content : String) (language : Option String) :
    Except ParseMarkdownCodeBlockError String :=
  match pmcbGo language (capturesIter content) [] with
  | .inl parsed_content => .ok parsed_content
  | .inr valid_results =>
    match valid_results.getLast? with
    | none => .error { message := "No matching markdown code blocks found in response",
                       original_response := content }
    | some last => .ok last

/-- The trimmed bodies of the fenced blocks whose language tag is exactly json,
in order of appearance. -/
def jsonTaggedBlocks (content : String) : List String :=
  ((capturesIter content).filter (fun b => b.1 = "json")).map (fun b => strTrim b.2)

/-- Helper: with a requested language the loop never early-returns and
accumulates exactly the trimmed matching blocks in order. -/
theorem pmcbGo_some_eq (lang : String) (caps : List (String × String))
    (acc : List String) :
    pmcbGo (some lang) caps acc =
      .inr (acc ++ (caps.filter (fun b => b.1 = lang)).map (fun b => strTrim b.2)) := by
  induction caps generalizing acc with
  | nil => simp [pmcbGo]
  | cons cap rest ih =>
    cases cap with
    | mk block_language block_body =>
      by_cases hl : block_language = lang
      · simp [pmcbGo, hl, ih, List.filter_cons]
      · simp [pmcbGo, hl, ih, List.filter_cons]

/-- C6: asked for language json, parse_markdown_code_block returns the trimmed
content of the last fenced block whose tag is exactly json (the last wins when
several exist, as the concrete two-block input shows), and when no json-tagged
block exists it fails with the no-matching-code-blocks error carrying the
original response text. -/
theorem c6_parse_markdown_last_json (content : String) :
    (jsonTaggedBlocks content = [] →
      parse_markdown_code_block content (some "json") =
        .error { message := "No matching markdown code blocks found in response",
                 original_response := content })
    ∧ (∀ last, (jsonTaggedBlocks content).getLast? = some last →
        parse_markdown_code_block content (some "json") = .ok last)
    ∧ parse_markdown_code_block "```json\nfirst\n```\ntext\n```json\nsecond\n```"
        (some "json") = .ok "second" := by
  refine ⟨?_, ?_, by rfl⟩
  · intro hempty
    rw [parse_markdown_code_block, pmcbGo_some_eq]
    rw [show ((capturesIter content).filter (fun b => b.1 = "json")).map
        (fun b => strTrim b.2) = jsonTaggedBlocks content from rfl, hempty]
    rfl
  · intro last hlast
    rw [parse_markdown_code_block, pmcbGo_some_eq]
    rw [show ((capturesIter content).filter (fun b => b.1 = "json")).map
        (fun b => strTrim b.2) = jsonTaggedBlocks content from rfl]
    simp only [List.nil_append]
    rw [hlast]

/-- Witness for C6 at a concrete input: a response with no fenced json block
fails with the error carrying the original response text. -/
theorem c6_parse_markdown_last_json_witness :
    parse_markdown_code_block "no code here" (some "json") =
      .error { message := "No matching markdown code blocks found in response",
               original_response := "no code here" } :=
  (c6_parse_markdown_last_json "no code here").1 rfl
